import Mathlib

/-
Verification of the EV state model in src/emhass/ev.py.

Floats are modelled as exact rationals (ℚ). Logging is pure observation
and is dropped. Mutation of `self` becomes explicit state passing:
a mutator takes the `ElectricVehicle` record and returns the updated one
(paired with the Python return value where the method returns something).
Fleet construction, which can raise `ValueError`, returns `Except String`.
-/

/-- One electric vehicle: the immutable configuration parameters together
with the mutable state variables `soc`, `is_available`,
`minimum_required_soc` (mirrors class `ElectricVehicle`). -/
structure ElectricVehicle where
  ev_index : ℕ
  battery_capacity : ℚ
  charging_efficiency : ℚ
  nominal_charging_power : ℚ
  minimum_charging_power : ℚ
  consumption_efficiency : ℚ
  soc : ℚ
  is_available : Bool
  minimum_required_soc : ℚ
  deriving Repr, DecidableEq

/-- `ElectricVehicle.__init__`: stores the configuration parameters and
initializes the state variables to `soc = 0.5`, `is_available = False`,
`minimum_required_soc = 0.2`. -/
def ElectricVehicle.init (ev_index : ℕ) (battery_capacity charging_efficiency
    nominal_charging_power minimum_charging_power consumption_efficiency : ℚ) :
    ElectricVehicle :=
  { ev_index := ev_index
    battery_capacity := battery_capacity
    charging_efficiency := charging_efficiency
    nominal_charging_power := nominal_charging_power
    minimum_charging_power := minimum_charging_power
    consumption_efficiency := consumption_efficiency
    soc := 0.5
    is_available := false
    minimum_required_soc := 0.2 }

/-- `ElectricVehicle.set_soc`: if the input is outside `[0, 1]` it is
clamped to `max(0.0, min(1.0, soc))` (with a warning logged); the
resulting value is stored. -/
def ElectricVehicle.set_soc (ev : ElectricVehicle) (soc : ℚ) : ElectricVehicle :=
  let soc := if ¬(0 ≤ soc ∧ soc ≤ 1) then max 0 (min 1 soc) else soc
  { ev with soc := soc }

/-- `ElectricVehicle.get_soc`: returns the current SOC. -/
def ElectricVehicle.get_soc (ev : ElectricVehicle) : ℚ :=
  ev.soc

/-- `ElectricVehicle.get_energy_level`: `soc * battery_capacity`. -/
def ElectricVehicle.get_energy_level (ev : ElectricVehicle) : ℚ :=
  ev.soc * ev.battery_capacity

/-- `ElectricVehicle.set_availability`: unconditional store. -/
def ElectricVehicle.set_availability (ev : ElectricVehicle) (is_available : Bool) :
    ElectricVehicle :=
  { ev with is_available := is_available }

/-- `ElectricVehicle.set_minimum_required_soc`: same clamp-then-store as
`set_soc`, targeting `minimum_required_soc`. -/
def ElectricVehicle.set_minimum_required_soc (ev : ElectricVehicle) (soc : ℚ) :
    ElectricVehicle :=
  let soc := if ¬(0 ≤ soc ∧ soc ≤ 1) then max 0 (min 1 soc) else soc
  { ev with minimum_required_soc := soc }

/-- `ElectricVehicle.km_to_energy`: `distance_km * consumption_efficiency`
(kWh), then `* 1000` (Wh). -/
def ElectricVehicle.km_to_energy (ev : ElectricVehicle) (distance_km : ℚ) : ℚ :=
  let energy_kwh := distance_km * ev.consumption_efficiency
  let energy_wh := energy_kwh * 1000
  energy_wh

/-- `ElectricVehicle.energy_to_km`: `energy_wh / 1000` (kWh), then
`/ consumption_efficiency` (km). -/
def ElectricVehicle.energy_to_km (ev : ElectricVehicle) (energy_wh : ℚ) : ℚ :=
  let energy_kwh := energy_wh / 1000
  let range_km := energy_kwh / ev.consumption_efficiency
  range_km

/-- `ElectricVehicle.get_current_range`: range for the current energy level. -/
def ElectricVehicle.get_current_range (ev : ElectricVehicle) : ℚ :=
  ev.energy_to_km ev.get_energy_level

/-- `ElectricVehicle.calculate_soc_delta`: energy charged is
`charging_power * time_step * charging_efficiency`, divided by
`battery_capacity`. Pure, no clamping. -/
def ElectricVehicle.calculate_soc_delta (ev : ElectricVehicle)
    (charging_power time_step : ℚ) : ℚ :=
  let energy_charged := charging_power * time_step * ev.charging_efficiency
  let soc_delta := energy_charged / ev.battery_capacity
  soc_delta

/-- `ElectricVehicle.update_soc`: adds the delta to the current SOC, clamps
to `[0, 1]`, stores via `set_soc`, and returns the new SOC (here the pair of
updated vehicle and returned value). -/
def ElectricVehicle.update_soc (ev : ElectricVehicle)
    (charging_power time_step : ℚ) : ElectricVehicle × ℚ :=
  let soc_delta := ev.calculate_soc_delta charging_power time_step
  let new_soc := ev.soc + soc_delta
  let new_soc := max 0 (min 1 new_soc)
  (ev.set_soc new_soc, new_soc)

/-- `ElectricVehicle.get_charging_power_bounds`: `(0, 0)` when not
available, otherwise `(minimum_charging_power, nominal_charging_power)`. -/
def ElectricVehicle.get_charging_power_bounds (ev : ElectricVehicle) : ℚ × ℚ :=
  if ¬ev.is_available then (0, 0)
  else (ev.minimum_charging_power, ev.nominal_charging_power)

/-- The five parallel configuration arrays read from `plant_conf`
(`plant_conf.get(key, [])` for the five `ev_*` keys). -/
structure PlantConf where
  ev_battery_capacity : List ℚ
  ev_charging_efficiency : List ℚ
  ev_nominal_charging_power : List ℚ
  ev_minimum_charging_power : List ℚ
  ev_consumption_efficiency : List ℚ
  deriving Repr

/-- The EV manager: the configured vehicle count and the owned vehicles
(mirrors class `EVManager`; the conf dicts and logger are dropped). -/
structure EVManager where
  num_evs : ℕ
  evs : List ElectricVehicle
  deriving Repr

/-- `EVManager._initialize_evs`: validates that every configuration array
has length `≥ num_evs`; on failure raises
`ValueError("Incomplete EV configuration")` and appends no vehicle; on
success creates one `ElectricVehicle` per index `0..num_evs-1` wired from
the arrays (`getD i 0` stands for the Python indexing `arr[i]`, which the
validation keeps in bounds). -/
def EVManager.init_evs (pc : PlantConf) (num_evs : ℕ) :
    Except String (List ElectricVehicle) :=
  if pc.ev_battery_capacity.length ≥ num_evs ∧
     pc.ev_charging_efficiency.length ≥ num_evs ∧
     pc.ev_nominal_charging_power.length ≥ num_evs ∧
     pc.ev_minimum_charging_power.length ≥ num_evs ∧
     pc.ev_consumption_efficiency.length ≥ num_evs then
    Except.ok ((List.range num_evs).map (fun i =>
      ElectricVehicle.init i
        (pc.ev_battery_capacity.getD i 0)
        (pc.ev_charging_efficiency.getD i 0)
        (pc.ev_nominal_charging_power.getD i 0)
        (pc.ev_minimum_charging_power.getD i 0)
        (pc.ev_consumption_efficiency.getD i 0)))
  else
    Except.error "Incomplete EV configuration"

/-- `EVManager.__init__`: reads `number_of_ev_loads` (default 0), starts
with an empty vehicle list, and calls `_initialize_evs` when the count is
positive; a raised `ValueError` propagates (the `Except.error` case). -/
def EVManager.init (pc : PlantConf) (number_of_ev_loads : ℕ) :
    Except String EVManager :=
  if number_of_ev_loads > 0 then
    match EVManager.init_evs pc number_of_ev_loads with
    | Except.ok evs => Except.ok { num_evs := number_of_ev_loads, evs := evs }
    | Except.error e => Except.error e
  else
    Except.ok { num_evs := number_of_ev_loads, evs := [] }

/-- `EVManager.is_enabled`: `num_evs > 0`. -/
def EVManager.is_enabled (m : EVManager) : Bool :=
  m.num_evs > 0

/-- `EVManager.get_ev`: bounds-checked lookup, `none` (Python `None`) for
any out-of-range index, with a warning logged. The Python `int` index may
be negative, hence `ℤ`. -/
def EVManager.get_ev (m : EVManager) (index : ℤ) : Option ElectricVehicle :=
  if 0 ≤ index ∧ index < (m.evs.length : ℤ) then m.evs.get? index.toNat
  else none

/-- `EVManager.set_availability_schedule`: looks the vehicle up, returns
early if absent, otherwise only logs receipt of the array; no state is
stored or changed either way. -/
def EVManager.set_availability_schedule (m : EVManager) (ev_index : ℤ)
    (availability_array : List ℤ) : EVManager :=
  match m.get_ev ev_index with
  | none => m
  | some _ => m

/-- `EVManager.set_range_requirements`: same shape as
`set_availability_schedule`; only index validation and logging. -/
def EVManager.set_range_requirements (m : EVManager) (ev_index : ℤ)
    (range_requirements_km : List ℚ) : EVManager :=
  match m.get_ev ev_index with
  | none => m
  | some _ => m

/-- The vehicle of the spec's concrete scenarios: capacity 77000 Wh,
charging efficiency 0.9, nominal power 4600 W, minimum power 1380 W,
consumption 0.15 kWh/km. -/
def sampleEV : ElectricVehicle :=
  ElectricVehicle.init 0 77000 0.9 4600 1380 0.15

/-- A one-vehicle manager used to exercise the registry lookups. -/
def sampleManager : EVManager :=
  { num_evs := 1, evs := [sampleEV] }

/-- The configuration of the spec's two-vehicle fleet scenario: all five
arrays of length 2. -/
def samplePC : PlantConf :=
  { ev_battery_capacity := [77000, 50000]
    ev_charging_efficiency := [0.9, 0.85]
    ev_nominal_charging_power := [4600, 7400]
    ev_minimum_charging_power := [1380, 1800]
    ev_consumption_efficiency := [0.15, 0.2] }

/-- A configuration with one array too short for two vehicles. -/
def shortPC : PlantConf :=
  { samplePC with ev_consumption_efficiency := [0.15] }

/-! Helper lemmas shared by several results. -/

/-- Clamping to `[0,1]` yields a nonnegative value. -/
theorem clamp01_nonneg (x : ℚ) : 0 ≤ max 0 (min 1 x) :=
  le_max_left 0 _

/-- Clamping to `[0,1]` yields a value at most one. -/
theorem clamp01_le_one (x : ℚ) : max 0 (min 1 x) ≤ 1 :=
  max_le (by norm_num) (min_le_left 1 x)

/-- The SOC stored by `set_soc` is always the clamp of the input. -/
theorem ElectricVehicle.set_soc_soc (ev : ElectricVehicle) (x : ℚ) :
    (ev.set_soc x).soc = max 0 (min 1 x) := by
  unfold ElectricVehicle.set_soc
  by_cases h : 0 ≤ x ∧ x ≤ 1
  · simp only [h, not_true_eq_false, if_false, if_neg]
    rw [min_eq_right h.2, max_eq_right h.1]
    simp [h]
  · simp [h]

/-- `set_soc` touches only the `soc` field. -/
theorem ElectricVehicle.set_soc_mrs (ev : ElectricVehicle) (x : ℚ) :
    (ev.set_soc x).minimum_required_soc = ev.minimum_required_soc :=
  rfl

/-- The value stored by `set_minimum_required_soc` is always the clamp of
the input. -/
theorem ElectricVehicle.set_mrs_val (ev : ElectricVehicle) (x : ℚ) :
    (ev.set_minimum_required_soc x).minimum_required_soc = max 0 (min 1 x) := by
  unfold ElectricVehicle.set_minimum_required_soc
  by_cases h : 0 ≤ x ∧ x ≤ 1
  · simp only [h, not_true_eq_false, if_false, if_neg]
    rw [min_eq_right h.2, max_eq_right h.1]
    simp [h]
  · simp [h]

/-- `set_minimum_required_soc` touches only the `minimum_required_soc`
field. -/
theorem ElectricVehicle.set_mrs_soc (ev : ElectricVehicle) (x : ℚ) :
    (ev.set_minimum_required_soc x).soc = ev.soc :=
  rfl

/-- Claim C1: `update_soc` computes the delta via `calculate_soc_delta`,
adds it to the current SOC, clamps the sum to `[0,1]`, stores the clamped
value as the new SOC, and returns it; the returned and stored value is
always in `[0,1]`; from SOC 1.0, power 4600 W, time step 0.5 h the SOC
stays 1.0, and from SOC 0.5 with power 0 it stays 0.5. -/
theorem update_soc_clamps_and_stores (ev : ElectricVehicle)
    (charging_power time_step : ℚ) :
    (ev.update_soc charging_power time_step).2 =
      max 0 (min 1 (ev.soc + ev.calculate_soc_delta charging_power time_step)) ∧
    (ev.update_soc charging_power time_step).1.soc =
      (ev.update_soc charging_power time_step).2 ∧
    0 ≤ (ev.update_soc charging_power time_step).2 ∧
    (ev.update_soc charging_power time_step).2 ≤ 1 ∧
    ((sampleEV.set_soc 1).update_soc 4600 0.5).2 = 1 ∧
    (sampleEV.update_soc 0 0.5).2 = 0.5 := by
  refine ⟨rfl, ?_, clamp01_nonneg _, clamp01_le_one _, ?_, ?_⟩
  · show (ev.set_soc _).soc = _
    rw [ElectricVehicle.set_soc_soc]
    rw [min_eq_right (clamp01_le_one _), max_eq_right (clamp01_nonneg _)]
    rfl
  · norm_num [ElectricVehicle.update_soc, ElectricVehicle.set_soc,
      ElectricVehicle.calculate_soc_delta, sampleEV, ElectricVehicle.init]
  · norm_num [ElectricVehicle.update_soc, ElectricVehicle.set_soc,
      ElectricVehicle.calculate_soc_delta, sampleEV, ElectricVehicle.init]

/-- Claim C2: `set_soc` never fails; for `x` in `[0,1]` a set followed by
`get_soc` returns exactly `x`; for `x` outside `[0,1]` the stored SOC is
`max 0 (min 1 x)`. -/
theorem set_soc_spec (ev : ElectricVehicle) (x : ℚ) :
    (0 ≤ x ∧ x ≤ 1 → (ev.set_soc x).get_soc = x) ∧
    (¬(0 ≤ x ∧ x ≤ 1) → (ev.set_soc x).soc = max 0 (min 1 x)) := by
  constructor
  · intro h
    show (ev.set_soc x).soc = x
    rw [ElectricVehicle.set_soc_soc, min_eq_right h.2, max_eq_right h.1]
  · intro _
    exact ElectricVehicle.set_soc_soc ev x

/-- Witness for C2 at `x = 1/2` (in range) and `x = 3/2` (out of range). -/
theorem set_soc_spec_witness :
    (sampleEV.set_soc (1/2)).get_soc = 1/2 ∧
    (sampleEV.set_soc (3/2)).soc = max 0 (min 1 (3/2)) :=
  ⟨(set_soc_spec sampleEV (1/2)).1 (by norm_num),
   (set_soc_spec sampleEV (3/2)).2 (by norm_num)⟩

/-- Claim C3: with positive consumption efficiency,
`energy_to_km (km_to_energy d) = d` for every nonnegative distance `d`
(exact over ℚ); concretely `km_to_energy 100 = 15000` Wh at 0.15 kWh/km
and `energy_to_km 15000 = 100` km. -/
theorem km_energy_round_trip (ev : ElectricVehicle) (d : ℚ)
    (hce : 0 < ev.consumption_efficiency) (hd : 0 ≤ d) :
    ev.energy_to_km (ev.km_to_energy d) = d ∧
    sampleEV.km_to_energy 100 = 15000 ∧
    sampleEV.energy_to_km 15000 = 100 := by
  refine ⟨?_, ?_, ?_⟩
  · unfold ElectricVehicle.energy_to_km ElectricVehicle.km_to_energy
    field_simp
  · norm_num [ElectricVehicle.km_to_energy, sampleEV, ElectricVehicle.init]
  · norm_num [ElectricVehicle.energy_to_km, sampleEV, ElectricVehicle.init]

/-- Witness for C3 at the spec's vehicle (0.15 kWh/km) and `d = 100`. -/
theorem km_energy_round_trip_witness :
    sampleEV.energy_to_km (sampleEV.km_to_energy 100) = 100 ∧
    sampleEV.km_to_energy 100 = 15000 ∧
    sampleEV.energy_to_km 15000 = 100 :=
  km_energy_round_trip sampleEV 100
    (by norm_num [sampleEV, ElectricVehicle.init]) (by norm_num)

/-- Claim C4: `get_charging_power_bounds` returns `(0, 0)` whenever the
vehicle is unavailable, whatever the configured powers, and the configured
`(minimum_charging_power, nominal_charging_power)` whenever available. -/
theorem charging_power_bounds_spec (ev : ElectricVehicle) :
    (ev.is_available = false → ev.get_charging_power_bounds = (0, 0)) ∧
    (ev.is_available = true →
      ev.get_charging_power_bounds =
        (ev.minimum_charging_power, ev.nominal_charging_power)) := by
  constructor <;> intro h <;>
    simp [ElectricVehicle.get_charging_power_bounds, h]

/-- Witness for C4: the sample vehicle, disconnected and connected. -/
theorem charging_power_bounds_spec_witness :
    sampleEV.get_charging_power_bounds = (0, 0) ∧
    (sampleEV.set_availability true).get_charging_power_bounds =
      (1380, 4600) :=
  ⟨(charging_power_bounds_spec sampleEV).1 rfl,
   (charging_power_bounds_spec (sampleEV.set_availability true)).2 rfl⟩

/-- Claim C5: `calculate_soc_delta` is exactly
`charging_power * time_step * charging_efficiency / battery_capacity`, for
negative power too, with no clamping; with capacity 77000 Wh, efficiency
0.9, power 4600 W and time step 0.5 h the delta is 2070/77000 and updating
from SOC 0.5 yields 0.5 + 2070/77000. -/
theorem calculate_soc_delta_formula (ev : ElectricVehicle)
    (charging_power time_step : ℚ) :
    ev.calculate_soc_delta charging_power time_step =
      charging_power * time_step * ev.charging_efficiency /
        ev.battery_capacity ∧
    sampleEV.calculate_soc_delta 4600 0.5 = 2070 / 77000 ∧
    sampleEV.calculate_soc_delta (-4600) 0.5 = -(2070 / 77000) ∧
    (sampleEV.update_soc 4600 0.5).2 = 0.5 + 2070 / 77000 := by
  refine ⟨rfl, ?_, ?_, ?_⟩
  · norm_num [ElectricVehicle.calculate_soc_delta, sampleEV,
      ElectricVehicle.init]
  · norm_num [ElectricVehicle.calculate_soc_delta, sampleEV,
      ElectricVehicle.init]
  · norm_num [ElectricVehicle.update_soc, ElectricVehicle.calculate_soc_delta,
      sampleEV, ElectricVehicle.init]

/-- The C8 invariant: both mutable SOC fields stay within `[0, 1]`. -/
def SocInvariant (ev : ElectricVehicle) : Prop :=
  0 ≤ ev.soc ∧ ev.soc ≤ 1 ∧
  0 ≤ ev.minimum_required_soc ∧ ev.minimum_required_soc ≤ 1

/-- Claim C8: the invariants `0 ≤ soc ≤ 1` and
`0 ≤ minimum_required_soc ≤ 1` hold at construction (SOC defaults to 0.5)
and are preserved by every operation for all argument values;
`set_minimum_required_soc` clamps out-of-range input like `set_soc`. -/
theorem soc_invariants_preserved (ev : ElectricVehicle) (h : SocInvariant ev)
    (i : ℕ) (c e np mp ce x charging_power time_step : ℚ) (b : Bool) :
    (SocInvariant (ElectricVehicle.init i c e np mp ce) ∧
      (ElectricVehicle.init i c e np mp ce).soc = 0.5) ∧
    SocInvariant (ev.set_soc x) ∧
    SocInvariant (ev.set_minimum_required_soc x) ∧
    SocInvariant (ev.set_availability b) ∧
    SocInvariant (ev.update_soc charging_power time_step).1 ∧
    (¬(0 ≤ x ∧ x ≤ 1) →
      (ev.set_minimum_required_soc x).minimum_required_soc =
        max 0 (min 1 x)) := by
  obtain ⟨h1, h2, h3, h4⟩ := h
  refine ⟨⟨⟨?_, ?_, ?_, ?_⟩, rfl⟩, ?_, ?_, ?_, ?_, ?_⟩
  · norm_num [ElectricVehicle.init]
  · norm_num [ElectricVehicle.init]
  · norm_num [ElectricVehicle.init]
  · norm_num [ElectricVehicle.init]
  · exact ⟨by rw [ElectricVehicle.set_soc_soc]; exact clamp01_nonneg x,
      by rw [ElectricVehicle.set_soc_soc]; exact clamp01_le_one x,
      by rw [ElectricVehicle.set_soc_mrs]; exact h3,
      by rw [ElectricVehicle.set_soc_mrs]; exact h4⟩
  · exact ⟨by rw [ElectricVehicle.set_mrs_soc]; exact h1,
      by rw [ElectricVehicle.set_mrs_soc]; exact h2,
      by rw [ElectricVehicle.set_mrs_val]; exact clamp01_nonneg x,
      by rw [ElectricVehicle.set_mrs_val]; exact clamp01_le_one x⟩
  · exact ⟨h1, h2, h3, h4⟩
  · show SocInvariant (ev.set_soc _)
    exact ⟨by rw [ElectricVehicle.set_soc_soc]; exact clamp01_nonneg _,
      by rw [ElectricVehicle.set_soc_soc]; exact clamp01_le_one _,
      by rw [ElectricVehicle.set_soc_mrs]; exact h3,
      by rw [ElectricVehicle.set_soc_mrs]; exact h4⟩
  · intro _
    exact ElectricVehicle.set_mrs_val ev x

/-- Witness for C8: the invariant survives an overshooting charge and an
out-of-range minimum-SOC request on the sample vehicle. -/
theorem soc_invariants_preserved_witness :
    SocInvariant (sampleEV.update_soc 4600 24).1 ∧
    SocInvariant (sampleEV.set_minimum_required_soc 7) :=
  ⟨(soc_invariants_preserved sampleEV
      (by norm_num [SocInvariant, sampleEV, ElectricVehicle.init])
      0 0 0 0 0 0 7 4600 24 true).2.2.2.2.1,
   (soc_invariants_preserved sampleEV
      (by norm_num [SocInvariant, sampleEV, ElectricVehicle.init])
      0 0 0 0 0 0 7 4600 24 true).2.2.1⟩

/-- Claim C9: the registry's schedule-setting operations change no state at
all, for every index (valid or not) and every array: the manager is
returned unchanged, so every vehicle's fields are unchanged and nothing is
stored. -/
theorem schedule_ops_are_frame (m : EVManager) (ev_index : ℤ)
    (availability_array : List ℤ) (range_requirements_km : List ℚ) :
    m.set_availability_schedule ev_index availability_array = m ∧
    m.set_range_requirements ev_index range_requirements_km = m := by
  constructor
  · unfold EVManager.set_availability_schedule
    cases m.get_ev ev_index <;> rfl
  · unfold EVManager.set_range_requirements
    cases m.get_ev ev_index <;> rfl

/-- Claim C10: construction initializes `is_available` to `false` and
`minimum_required_soc` to 0.2, so a fresh vehicle's
`get_charging_power_bounds` is `(0, 0)` before any `set_availability`. -/
theorem init_unavailable_defaults (i : ℕ) (c e np mp ce : ℚ) :
    (ElectricVehicle.init i c e np mp ce).is_available = false ∧
    (ElectricVehicle.init i c e np mp ce).minimum_required_soc = 0.2 ∧
    (ElectricVehicle.init i c e np mp ce).get_charging_power_bounds =
      (0, 0) := by
  refine ⟨rfl, rfl, ?_⟩
  simp [ElectricVehicle.get_charging_power_bounds, ElectricVehicle.init]

/-- Claim C7: `get_ev` returns the vehicle at the requested position when
`0 ≤ index < number of vehicles`, and `none` (never an exception) for every
other integer index, negative ones included. -/
theorem get_ev_bounds_checked (m : EVManager) (index : ℤ) :
    (0 ≤ index → index < (m.evs.length : ℤ) →
      m.get_ev index = m.evs.get? index.toNat ∧
      (m.get_ev index).isSome = true) ∧
    (¬(0 ≤ index ∧ index < (m.evs.length : ℤ)) → m.get_ev index = none) := by
  constructor
  · intro h0 hlt
    have hnat : index.toNat < m.evs.length := by omega
    have hif : m.get_ev index = m.evs.get? index.toNat := by
      unfold EVManager.get_ev
      rw [if_pos ⟨h0, hlt⟩]
    refine ⟨hif, ?_⟩
    rw [hif, List.get?_eq_get hnat]
    rfl
  · intro h
    unfold EVManager.get_ev
    rw [if_neg h]

/-- Witness for C7 on the one-vehicle manager: index 0 hits, index -1 and
index 5 miss without an exception. -/
theorem get_ev_bounds_checked_witness :
    (sampleManager.get_ev 0 = sampleManager.evs.get? 0 ∧
      (sampleManager.get_ev 0).isSome = true) ∧
    sampleManager.get_ev (-1) = none ∧
    sampleManager.get_ev 5 = none :=
  ⟨⟨((get_ev_bounds_checked sampleManager 0).1 (by norm_num)
        (by norm_num [sampleManager])).1,
    ((get_ev_bounds_checked sampleManager 0).1 (by norm_num)
        (by norm_num [sampleManager])).2⟩,
   (get_ev_bounds_checked sampleManager (-1)).2 (by norm_num),
   (get_ev_bounds_checked sampleManager 5).2 (by norm_num [sampleManager])⟩

/-- Claim C6: manager initialization with a positive vehicle count checks
all five configuration arrays before building anything: if every array has
length at least the count, it succeeds and builds one vehicle per index
`0..count-1` wired from the corresponding entries; if any array is
shorter, it fails with the configuration error and no vehicle exists
(all-or-nothing). -/
theorem evmanager_init_all_or_nothing (pc : PlantConf) (n : ℕ) (hn : n > 0) :
    ((pc.ev_battery_capacity.length ≥ n ∧
      pc.ev_charging_efficiency.length ≥ n ∧
      pc.ev_nominal_charging_power.length ≥ n ∧
      pc.ev_minimum_charging_power.length ≥ n ∧
      pc.ev_consumption_efficiency.length ≥ n) →
      ∃ m : EVManager, EVManager.init pc n = Except.ok m ∧
        m.evs.length = n ∧
        ∀ i, i < n →
          m.evs.getD i (ElectricVehicle.init 0 0 0 0 0 0) =
            ElectricVehicle.init i
              (pc.ev_battery_capacity.getD i 0)
              (pc.ev_charging_efficiency.getD i 0)
              (pc.ev_nominal_charging_power.getD i 0)
              (pc.ev_minimum_charging_power.getD i 0)
              (pc.ev_consumption_efficiency.getD i 0)) ∧
    (¬(pc.ev_battery_capacity.length ≥ n ∧
       pc.ev_charging_efficiency.length ≥ n ∧
       pc.ev_nominal_charging_power.length ≥ n ∧
       pc.ev_minimum_charging_power.length ≥ n ∧
       pc.ev_consumption_efficiency.length ≥ n) →
      EVManager.init pc n = Except.error "Incomplete EV configuration") := by
  constructor
  · intro h
    have hok : EVManager.init_evs pc n =
        Except.ok ((List.range n).map (fun i =>
          ElectricVehicle.init i
            (pc.ev_battery_capacity.getD i 0)
            (pc.ev_charging_efficiency.getD i 0)
            (pc.ev_nominal_charging_power.getD i 0)
            (pc.ev_minimum_charging_power.getD i 0)
            (pc.ev_consumption_efficiency.getD i 0))) := by
      unfold EVManager.init_evs
      rw [if_pos h]
    refine ⟨⟨n, (List.range n).map (fun i =>
      ElectricVehicle.init i
        (pc.ev_battery_capacity.getD i 0)
        (pc.ev_charging_efficiency.getD i 0)
        (pc.ev_nominal_charging_power.getD i 0)
        (pc.ev_minimum_charging_power.getD i 0)
        (pc.ev_consumption_efficiency.getD i 0))⟩, ?_, ?_, ?_⟩
    · unfold EVManager.init
      rw [if_pos hn, hok]
    · simp
    · intro i hi
      simp only [List.getD_eq_get?, List.get?_map, List.get?_range hi,
        Option.map_some, Option.getD_some]
      rfl
  · intro h
    have herr : EVManager.init_evs pc n =
        Except.error "Incomplete EV configuration" := by
      unfold EVManager.init_evs
      rw [if_neg h]
    unfold EVManager.init
    rw [if_pos hn, herr]

/-- Witness for C6: count 2 with all five arrays of length 2 succeeds and
wires both vehicles; the configuration with one short array fails. -/
theorem evmanager_init_all_or_nothing_witness :
    (∃ m : EVManager, EVManager.init samplePC 2 = Except.ok m ∧
      m.evs.length = 2 ∧
      ∀ i, i < 2 →
        m.evs.getD i (ElectricVehicle.init 0 0 0 0 0 0) =
          ElectricVehicle.init i
            (samplePC.ev_battery_capacity.getD i 0)
            (samplePC.ev_charging_efficiency.getD i 0)
            (samplePC.ev_nominal_charging_power.getD i 0)
            (samplePC.ev_minimum_charging_power.getD i 0)
            (samplePC.ev_consumption_efficiency.getD i 0)) ∧
    EVManager.init shortPC 2 = Except.error "Incomplete EV configuration" :=
  ⟨(evmanager_init_all_or_nothing samplePC 2 (by norm_num)).1
      (by norm_num [samplePC]),
   (evmanager_init_all_or_nothing shortPC 2 (by norm_num)).2
      (by norm_num [shortPC, samplePC])⟩
